import Mathlib

/-!
Shallow embedding of `screenpipe-vision/src/utils.rs` (screen-capture change
detection and OCR reconstruction), together with theorems settling the
specification claims about it.

Numeric conventions: Rust's `f32`/`f64` values are idealized as exact
rationals (`ℚ`); machine integers that never overflow in the modelled code
(frame numbers, word ordinals, counts) are `Nat`.  External library calls
(the `image_compare` crate, the OCR backend, the standard hasher, the
filesystem) are black boxes per the spec; they are either passed in as
function arguments or modelled from the spec with a clearly marked
definition.
-/

/-- One word-level OCR record, mirroring the fields of the OCR backend's
`DataLine` that `utils.rs` reads: hierarchical position
(level/page/block/paragraph/line/word), confidence and text. -/
structure DataLine where
  level : Nat
  page_num : Nat
  block_num : Nat
  par_num : Nat
  line_num : Nat
  word_num : Nat
  conf : ℚ
  text : String
  deriving DecidableEq

/-- The OCR backend's output: the ordered sequence of word-level records
(`DataOutput.data` is the only field `utils.rs` uses). -/
structure DataOutput where
  data : List DataLine
  deriving DecidableEq

/-- Embedding of `data_output_to_text` (utils.rs:77-88): fold over the
records, appending each non-empty text, preceded by a space when the
buffer is already non-empty. -/
def data_output_to_text (data_output : DataOutput) : String :=
  data_output.data.foldl
    (fun text record =>
      if record.text = "" then text
      else if text = "" then text ++ record.text
      else (text ++ " ") ++ record.text)
    ""

/-- Spec-side restatement of the flattened-text output, written from the
spec's words: the record texts, empty ones dropped, joined with exactly one
space per boundary and no leading or trailing space.  To be compared with
`data_output_to_text`. -/
def flattened_text_spec : List String → String
  | [] => ""
  | [x] => x
  | x :: y :: ys => x ++ " " ++ flattened_text_spec (y :: ys)

/-- Embedding of `format!("{:.2}", q)` (two-decimal formatting of a float,
idealized over `ℚ`; the tie-breaking rounding mode of Rust's float
formatter is idealized as round-to-nearest). -/
def fmt2 (q : ℚ) : String :=
  let n : ℤ := round (q * 100)
  let s : String := if n < 0 then "-" else ""
  let m : ℕ := n.natAbs
  let ip : ℕ := m / 100
  let fp : ℕ := m % 100
  s ++ toString ip ++ "." ++ (if fp < 10 then "0" ++ toString fp else toString fp)

/-- Embedding of the `line_position` value built at utils.rs:104-114 from
the current record's position fields. -/
def line_position_of (record : DataLine) : String :=
  "level" ++ toString record.level ++ "page_num" ++ toString record.page_num ++
    "block_num" ++ toString record.block_num ++ "par_num" ++ toString record.par_num ++
    "line_num" ++ toString record.line_num

/-- The mutable locals of the `data_output_to_json` loop (utils.rs:91-95).
An emitted record (`HashMap<String, String>` in the source) is modelled as
the list of key/value pairs in insertion order. -/
structure JsonState where
  lines : List (List (String × String))
  current_line : String
  current_conf : ℚ
  word_count : Nat
  last_word_num : Nat
  deriving DecidableEq

/-- Initial state of the `data_output_to_json` loop. -/
def jsonInit : JsonState :=
  { lines := [], current_line := "", current_conf := 0, word_count := 0, last_word_num := 0 }

/-- One iteration of the `data_output_to_json` loop body (utils.rs:97-130):
a word-ordinal-0 record flushes a non-empty accumulated line (average
confidence = sum / count) into a three-field record; a record whose word
ordinal strictly exceeds the previous one contributes text, confidence and
count; `last_word_num` is updated unconditionally. -/
def jsonStep (s : JsonState) (record : DataLine) : JsonState :=
  let s :=
    if record.word_num = 0 then
      if s.current_line = "" then s
      else
        { s with
          lines := s.lines ++
            [[("text", s.current_line),
              ("confidence", fmt2 (s.current_conf / (s.word_count : ℚ))),
              ("line_position", line_position_of record)]],
          current_line := "",
          current_conf := 0,
          word_count := 0 }
    else s
  let s :=
    if record.word_num > s.last_word_num then
      { s with
        current_line :=
          (if s.current_line = "" then s.current_line else s.current_line ++ " ") ++ record.text,
        current_conf := s.current_conf + record.conf,
        word_count := s.word_count + 1 }
    else s
  { s with last_word_num := record.word_num }

/-- Embedding of `data_output_to_json` (utils.rs:90-140) up to the final
JSON serialization (`serde_json::to_string_pretty`, an external library
whose output depends on `HashMap` iteration order): the `lines` vector as
built by the loop, including the trailing flush at utils.rs:131-137, which
inserts only the `text` and `confidence` keys. -/
def data_output_to_json_lines (data_output : DataOutput) : List (List (String × String)) :=
  let s := data_output.data.foldl jsonStep jsonInit
  if s.current_line = "" then s.lines
  else
    s.lines ++
      [[("text", s.current_line),
        ("confidence", fmt2 (s.current_conf / (s.word_count : ℚ)))]]

/-- Helper for relating the fold of `data_output_to_text` to the spec-side
join: the suffix contributed by a list of (non-empty) texts after a
non-empty buffer, each preceded by one space. -/
def joinTail : List String → String
  | [] => ""
  | x :: xs => (" " ++ x) ++ joinTail xs

/-- The spec's OCR-reconstruction grouping example: a line-boundary marker,
"hello" (confidence 90), "world" (confidence 80), and a closing marker. -/
def exampleGroupingStream : DataOutput :=
  ⟨[⟨1, 1, 1, 1, 1, 0, 0, ""⟩,
    ⟨5, 1, 1, 1, 1, 1, 90, "hello"⟩,
    ⟨5, 1, 1, 1, 1, 2, 80, "world"⟩,
    ⟨1, 1, 1, 1, 1, 0, 0, ""⟩]⟩

/-- A token stream that ends without a trailing word-ordinal-0 marker: a
single word "hello" with confidence 90. -/
def exampleTrailingStream : DataOutput :=
  ⟨[⟨5, 1, 1, 1, 1, 1, 90, "hello"⟩]⟩

/-- A token stream whose first line consists of a single empty-texted word
(confidence 50): the marker that follows finds an empty text buffer, so the
accumulated confidence and count survive into the next line's record. -/
def exampleCarryStream : DataOutput :=
  ⟨[⟨5, 1, 1, 1, 1, 1, 50, ""⟩,
    ⟨1, 1, 1, 1, 2, 0, 0, ""⟩,
    ⟨5, 1, 1, 1, 2, 1, 100, "a"⟩]⟩

/-- A decoded raster image (`image::DynamicImage`): dimensions plus the raw
byte content exposed by `as_bytes`. -/
structure DynamicImage where
  width : Nat
  height : Nat
  bytes : List Nat
  deriving DecidableEq

/-- A single-channel intensity image, the result of `to_luma8`. -/
structure GrayImage where
  width : Nat
  height : Nat
  pixels : List Nat
  deriving DecidableEq

/-- Modelled from the spec: `to_luma8` is the external `image` crate's
conversion of a decoded image to single-channel intensity ("convert both
images to single-channel intensity").  It preserves the dimensions; the
per-pixel intensity formula is the external black box and is carried here
as the byte content unchanged, since no claim depends on it. -/
def to_luma8 (image : DynamicImage) : GrayImage :=
  { width := image.width, height := image.height, pixels := image.bytes }

/-- Modelled from the spec: the error type of the external `image_compare`
crate; the only variant the spec distinguishes is the dimension mismatch. -/
inductive CompareError where
  | DimensionsDiffer
  | Other (msg : String)
  deriving DecidableEq

/-- Display string of a `CompareError`, used when the source wraps it into
an `anyhow` message. -/
def CompareError.message : CompareError → String
  | .DimensionsDiffer => "The dimensions of the images are not identical"
  | .Other msg => msg

/-- Modelled from the spec: the external `image_compare` structural
similarity entry point ("Fails with a `DimensionMismatch` condition when
the two images differ in width or height").  On matching dimensions it
returns the similarity score; the score computation itself is the external
black box, supplied as the `score` argument. -/
def gray_similarity_structure (score : GrayImage → GrayImage → ℚ)
    (a b : GrayImage) : Except CompareError ℚ :=
  if a.width = b.width ∧ a.height = b.height then .ok (score a b)
  else .error .DimensionsDiffer

/-- Outcome of a Rust expression that may panic: either a normal value or a
panic with its message. -/
inductive PanicOr (α : Type) where
  | panicked (msg : String)
  | ok (a : α)
  deriving DecidableEq

/-- Embedding of Rust's `Result::expect`: unwraps an `Ok` value and panics
with the given message on `Err`. -/
def Except.expect {ε α : Type} : Except ε α → String → PanicOr α
  | .ok a, _ => .ok a
  | .error _, msg => .panicked msg

/-- Embedding of `compare_images_histogram` (utils.rs:36-44): convert both
images to intensity and run the external histogram comparison (`hist`,
the black-box `gray_similarity_histogram` with the Hellinger metric),
wrapping any error into an `anyhow` message. -/
def compare_images_histogram (hist : GrayImage → GrayImage → Except CompareError ℚ)
    (image1 image2 : DynamicImage) : Except String ℚ :=
  match hist (to_luma8 image1) (to_luma8 image2) with
  | .ok v => .ok v
  | .error e => .error ("Failed to compare images: " ++ e.message)

/-- Embedding of `compare_images_ssim` (utils.rs:46-53): convert both
images to intensity, run the external structural comparison and `expect`
its result — an `Err` (dimension mismatch) therefore panics.  The returned
value is the `score` field of the `Similarity` result. -/
def compare_images_ssim (score : GrayImage → GrayImage → ℚ)
    (image1 image2 : DynamicImage) : PanicOr ℚ :=
  (gray_similarity_structure score (to_luma8 image1) (to_luma8 image2)).expect
    "Images had different dimensions"

/-- Modelled from the spec: `MaxAverageFrame` lives in `crate::core`, which
is outside the given sources; the spec reduces it to the tracked frame
ordinal ("replace the tracked MaxAverageFrame with `{frameOrdinal}`"), and
`utils.rs` reads only its `frame_number` field. -/
structure MaxAverageFrame where
  frame_number : Nat
  deriving DecidableEq

/-- Result of running a fallible, possibly panicking Rust function:
a normal value, a propagated `anyhow` error, or a panic. -/
inductive RunResult (α : Type) where
  | ok (a : α)
  | err (e : String)
  | panicked (msg : String)
  deriving DecidableEq

/-- Embedding of `compare_with_previous_image` (utils.rs:178-199).  The two
`&mut` parameters (`max_average`, `max_avg_value`) are modelled by
returning their final values next to the function result; the body reads
`max_average` only for a debug log and never assigns either. -/
def compare_with_previous_image
    (hist : GrayImage → GrayImage → Except CompareError ℚ)
    (score : GrayImage → GrayImage → ℚ)
    (previous_image : Option DynamicImage) (current_image : DynamicImage)
    (max_average : Option MaxAverageFrame) (frame_number : Nat)
    (max_avg_value : ℚ) : RunResult ℚ × Option MaxAverageFrame × ℚ :=
  match previous_image with
  | some prev_image =>
    match compare_images_histogram hist prev_image current_image with
    | .error e => (.err e, max_average, max_avg_value)
    | .ok histogram_diff =>
      match compare_images_ssim score prev_image current_image with
      | .panicked msg => (.panicked msg, max_average, max_avg_value)
      | .ok ssim_score =>
        let ssim_diff := 1 - ssim_score
        let current_average := (histogram_diff + ssim_diff) / 2
        -- debug! reads max_average.frame_number (default 0) but writes nothing
        let _max_avg_frame_number := (max_average.map (·.frame_number)).getD 0
        (.ok current_average, max_average, max_avg_value)
  | none => (.ok 0, max_average, max_avg_value)

/-- One visible-window capture: image, window title, app identifier and
focus flag (the `Vec<(DynamicImage, String, String, bool)>` element). -/
def WindowCapture : Type := DynamicImage × String × String × Bool

/-- Modelled from the spec: the standard library's `DefaultHasher` used by
`calculate_hash` (utils.rs:30-34) is an external deterministic 64-bit hash
of the image's raw byte content; modelled as a fold over the bytes reduced
modulo 2^64. -/
def calculate_hash (image : DynamicImage) : Nat :=
  image.bytes.foldl (fun h b => (h * 31 + b) % 2 ^ 64) 0

/-- Embedding of `capture_screenshot` (utils.rs:142-176).  The two external
async capture calls are black boxes passed as their results (`primary` for
`monitor.capture_image()`, `windows` for `capture_all_visible_windows()`),
and the wall-clock `capture_duration` is an oracle value, since real time
has no shallow embedding.  A primary failure is logged and mapped to the
`anyhow` error; a secondary failure is logged as a warning and replaced by
the empty sequence. -/
def capture_screenshot (primary : Except String DynamicImage)
    (windows : Except String (List WindowCapture)) (capture_duration : Nat) :
    Except String (DynamicImage × List WindowCapture × Nat × Nat) :=
  match primary with
  | .error _ => .error "Monitor capture failed"
  | .ok buffer =>
    let image := buffer
    let image_hash := calculate_hash image
    let window_images :=
      match windows with
      | .ok images => images
      | .error _ => []
    .ok (image, window_images, image_hash, capture_duration)

/-- Filesystem oracle for `save_text_files`: the black-box outcomes of
`fs::create_dir_all`, `File::create` (per path) and `writeln!` (per path;
a path's writes either all succeed or its first write fails). -/
structure FsOracle where
  create_dir_ok : String → Bool
  create_ok : String → Bool
  write_ok : String → Bool

/-- Observable outcome of a `save_text_files` run: the file paths on which
`File::create` was attempted, in order; the error messages logged; and the
panic message if a `writeln!(..).unwrap()` failed. -/
structure SaveOutcome where
  create_attempts : List String
  logs : List String
  panic : Option String
  deriving DecidableEq

/-- All `writeln!` calls for `lines` on `path` succeed (vacuously when
there is nothing to write). -/
def writeAllOk (fs : FsOracle) (path : String) (lines : List String) : Bool :=
  lines.all (fun _ => fs.write_ok path)

/-- Text of a record: `record.get("text").cloned().unwrap_or_default()`. -/
def recordText (record : List (String × String)) : String :=
  ((record.lookup "text").getD "")

/-- Embedding of `save_text_files` (utils.rs:201-269) over a filesystem
oracle, recording which creates were attempted, what was logged and
whether an unwrapped write failure panicked.  Control flow is the
source's: directory-creation failure returns at once; each category's
`File::create` failure logs and returns; `writeln!` failures for the new
and current files are unwrapped (panic); only the previous file's writes
are error-handled (log and return). -/
def save_text_files (fs : FsOracle) (frame_number : Nat)
    (new_text_json current_text_json : List (List (String × String)))
    (previous_text_json : Option (List (List (String × String)))) : SaveOutcome :=
  let id := frame_number
  if ¬ fs.create_dir_ok "text_json" then
    { create_attempts := [], logs := ["Failed to create text_json directory"], panic := none }
  else
    let new_text_lines := new_text_json.map recordText
    let current_text_lines := current_text_json.map recordText
    let new_text_file_path := "text_json/new_text_" ++ toString id ++ ".txt"
    if ¬ fs.create_ok new_text_file_path then
      { create_attempts := [new_text_file_path],
        logs := ["Failed to create new text file"], panic := none }
    else if ¬ writeAllOk fs new_text_file_path new_text_lines then
      { create_attempts := [new_text_file_path], logs := [],
        panic := some "called unwrap on an Err value" }
    else
      let current_text_file_path := "text_json/current_text_" ++ toString id ++ ".txt"
      if ¬ fs.create_ok current_text_file_path then
        { create_attempts := [new_text_file_path, current_text_file_path],
          logs := ["Failed to create current text file"], panic := none }
      else if ¬ writeAllOk fs current_text_file_path current_text_lines then
        { create_attempts := [new_text_file_path, current_text_file_path], logs := [],
          panic := some "called unwrap on an Err value" }
      else
        match previous_text_json with
        | none =>
          { create_attempts := [new_text_file_path, current_text_file_path],
            logs := [], panic := none }
        | some prev_json =>
          let prev_text_lines := prev_json.map recordText
          let prev_text_file_path := "text_json/previous_text_" ++ toString id ++ ".txt"
          if ¬ fs.create_ok prev_text_file_path then
            { create_attempts := [new_text_file_path, current_text_file_path, prev_text_file_path],
              logs := ["Failed to create previous text file"], panic := none }
          else if ¬ writeAllOk fs prev_text_file_path prev_text_lines then
            { create_attempts := [new_text_file_path, current_text_file_path, prev_text_file_path],
              logs := ["Failed to write to previous text file"], panic := none }
          else
            { create_attempts := [new_text_file_path, current_text_file_path, prev_text_file_path],
              logs := [], panic := none }

theorem str_append_assoc (a b c : String) : a ++ b ++ c = a ++ (b ++ c) := by
  apply String.ext; simp [String.data_append]

theorem str_empty_append (s : String) : "" ++ s = s := by
  apply String.ext; simp [String.data_append]

theorem str_append_empty (s : String) : s ++ "" = s := by
  apply String.ext; simp [String.data_append]

theorem str_append_ne_empty_right (a b : String) (h : b ≠ "") : a ++ b ≠ "" := by
  intro hab
  apply h
  apply String.ext
  have := congrArg String.data hab
  simp [String.data_append] at this
  simp [this.2]

/-- Two-decimal formatting of a whole number: `fmt2 ↑m = toString m ++ ".00"`. -/
theorem fmt2_natCast (m : ℕ) : fmt2 (m : ℚ) = toString m ++ ".00" := by
  have h100 : ((m : ℚ) * 100) = ((m * 100 : ℕ) : ℚ) := by push_cast; ring
  unfold fmt2
  dsimp only
  rw [h100, round_natCast]
  have hneg : ¬ ((m * 100 : ℕ) : ℤ) < 0 := not_lt.mpr (Int.natCast_nonneg _)
  rw [if_neg hneg]
  rw [Int.natAbs_ofNat]
  have hip : m * 100 / 100 = m := by omega
  have hfp : m * 100 % 100 = 0 := by omega
  rw [hip, hfp]
  rw [if_pos (by norm_num)]
  rw [str_empty_append]
  have h0 : ("0" : String) ++ toString (0 : ℕ) = "00" := by decide
  rw [h0]
  apply String.ext
  simp [String.data_append]

theorem flattened_text_spec_cons (x : String) (xs : List String) :
    flattened_text_spec (x :: xs) = x ++ joinTail xs := by
  induction xs generalizing x with
  | nil => simp [flattened_text_spec, joinTail, str_append_empty]
  | cons y ys ih =>
    simp [flattened_text_spec, joinTail, ih y, str_append_assoc]

theorem data_output_to_text_fold_ne (l : List DataLine) :
    ∀ acc : String, acc ≠ "" →
      l.foldl
        (fun text record =>
          if record.text = "" then text
          else if text = "" then text ++ record.text
          else (text ++ " ") ++ record.text) acc =
      acc ++ joinTail ((l.map DataLine.text).filter (fun t => t ≠ "")) := by
  induction l with
  | nil => intro acc _; simp [joinTail, str_append_empty]
  | cons r l ih =>
    intro acc hacc
    rw [List.foldl_cons, List.map_cons, List.filter_cons]
    by_cases hr : r.text = ""
    · rw [if_pos hr, hr]
      rw [if_neg (show ¬ (decide (("" : String) ≠ "") = true) by decide)]
      exact ih acc hacc
    · rw [if_neg hr, if_neg hacc]
      rw [if_pos (show decide (r.text ≠ "") = true by simp [hr])]
      rw [ih ((acc ++ " ") ++ r.text) (str_append_ne_empty_right _ _ hr)]
      simp [joinTail, str_append_assoc]

theorem data_output_to_text_fold_eq (l : List DataLine) :
    List.foldl
        (fun text record =>
          if record.text = "" then text
          else if text = "" then text ++ record.text
          else (text ++ " ") ++ record.text) "" l =
      flattened_text_spec ((l.map DataLine.text).filter (fun t => t ≠ "")) := by
  induction l with
  | nil => rfl
  | cons r l ih =>
    rw [List.foldl_cons, List.map_cons, List.filter_cons]
    by_cases hr : r.text = ""
    · rw [if_pos hr, hr]
      rw [if_neg (show ¬ (decide (("" : String) ≠ "") = true) by decide)]
      exact ih
    · rw [if_neg hr, if_pos rfl]
      rw [if_pos (show decide (r.text ≠ "") = true by simp [hr])]
      rw [str_empty_append]
      rw [data_output_to_text_fold_ne l r.text hr]
      exact (flattened_text_spec_cons _ _).symm

/-- C7: for every token stream, `data_output_to_text` equals the
space-joined concatenation of the records' non-empty texts, in record
order, with one space per boundary and no leading or trailing space; for
the empty stream it is the empty string (and the function is total, so no
error can arise). -/
theorem claim_C7_flattened_text :
    (∀ d : DataOutput,
      data_output_to_text d =
        flattened_text_spec ((d.data.map DataLine.text).filter (fun t => t ≠ ""))) ∧
    data_output_to_text ⟨[]⟩ = "" := by
  refine ⟨fun d => ?_, rfl⟩
  unfold data_output_to_text
  exact data_output_to_text_fold_eq d.data

theorem jsonStep_word_count (s : JsonState) (record : DataLine)
    (h : s.current_line ≠ "" → 1 ≤ s.word_count) :
    (jsonStep s record).current_line ≠ "" → 1 ≤ (jsonStep s record).word_count := by
  by_cases h0 : record.word_num = 0
  · by_cases hl : s.current_line = ""
    · simp [jsonStep, h0, hl, Nat.not_lt_zero]
    · simp [jsonStep, h0, hl, Nat.not_lt_zero]
  · by_cases hw : record.word_num > s.last_word_num
    · simp [jsonStep, h0, hw]
    · simpa [jsonStep, h0, hw] using h

theorem jsonStep_scanl_word_count (l : List DataLine) :
    ∀ s : JsonState, (s.current_line ≠ "" → 1 ≤ s.word_count) →
      ∀ t ∈ List.scanl jsonStep s l, t.current_line ≠ "" → 1 ≤ t.word_count := by
  induction l with
  | nil =>
    intro s hs t ht
    rw [List.scanl_nil, List.mem_singleton] at ht
    exact ht ▸ hs
  | cons r l ih =>
    intro s hs t ht
    rw [List.scanl_cons] at ht
    rcases List.mem_cons.mp ht with h | h
    · exact h ▸ hs
    · exact ih (jsonStep s r) (jsonStep_word_count s r hs) t h

theorem jsonStep_keys (s : JsonState) (record : DataLine)
    (h : ∀ rec ∈ s.lines, rec.map Prod.fst = ["text", "confidence", "line_position"]) :
    ∀ rec ∈ (jsonStep s record).lines,
      rec.map Prod.fst = ["text", "confidence", "line_position"] := by
  by_cases h0 : record.word_num = 0
  · by_cases hl : s.current_line = ""
    · simpa [jsonStep, h0, hl, Nat.not_lt_zero] using h
    · intro rec hrec
      simp [jsonStep, h0, hl, Nat.not_lt_zero] at hrec
      rcases hrec with hmem | hmem
      · exact h rec hmem
      · rw [hmem]
        rfl
  · by_cases hw : record.word_num > s.last_word_num
    · simpa [jsonStep, h0, hw] using h
    · simpa [jsonStep, h0, hw] using h

theorem jsonStep_fold_keys (l : List DataLine) :
    ∀ s : JsonState,
      (∀ rec ∈ s.lines, rec.map Prod.fst = ["text", "confidence", "line_position"]) →
      ∀ rec ∈ (List.foldl jsonStep s l).lines,
        rec.map Prod.fst = ["text", "confidence", "line_position"] := by
  induction l with
  | nil => intro s hs; simpa using hs
  | cons r l ih =>
    intro s hs
    rw [List.foldl_cons]
    exact ih (jsonStep s r) (jsonStep_keys s r hs)

/-- C10: along any token stream, every state reached by the
`data_output_to_json` scan whose text buffer is non-empty has a word count
of at least 1; both average-confidence divisions (the marker flush and the
trailing flush) are guarded by exactly that non-emptiness check, so the
divisor is never zero. -/
theorem claim_C10_no_div_by_zero :
    ∀ (d : DataOutput) (s : JsonState),
      s ∈ List.scanl jsonStep jsonInit d.data →
      s.current_line ≠ "" → 1 ≤ s.word_count :=
  fun d s hs hl =>
    jsonStep_scanl_word_count d.data jsonInit (fun h => absurd rfl h) s hs hl

theorem claim_C10_witness :
    1 ≤ (jsonStep jsonInit ⟨5, 1, 1, 1, 1, 1, 90, "hello"⟩).word_count :=
  claim_C10_no_div_by_zero ⟨[⟨5, 1, 1, 1, 1, 1, 90, "hello"⟩]⟩
    (jsonStep jsonInit ⟨5, 1, 1, 1, 1, 1, 90, "hello"⟩)
    (by rw [List.scanl_cons, List.scanl_nil]
        exact List.mem_cons_of_mem _ (List.mem_singleton_self _))
    (by decide)

/-- C5 (amended): every record flushed by a word-ordinal-0 marker carries
the three fields text, confidence and line_position; a record produced by
the trailing flush (stream ending without a marker) carries only text and
confidence — the position descriptor is omitted there. -/
theorem claim_C5_record_fields :
    ∀ d : DataOutput,
      (∀ rec ∈ (List.foldl jsonStep jsonInit d.data).lines,
        rec.map Prod.fst = ["text", "confidence", "line_position"]) ∧
      (∀ rec ∈ data_output_to_json_lines d,
        rec.map Prod.fst = ["text", "confidence", "line_position"] ∨
        rec.map Prod.fst = ["text", "confidence"]) := by
  intro d
  have hfold := jsonStep_fold_keys d.data jsonInit (by simp [jsonInit])
  refine ⟨hfold, ?_⟩
  intro rec hrec
  simp only [data_output_to_json_lines] at hrec
  by_cases hl : (List.foldl jsonStep jsonInit d.data).current_line = ""
  · rw [if_pos hl] at hrec
    exact Or.inl (hfold rec hrec)
  · rw [if_neg hl] at hrec
    rcases List.mem_append.mp hrec with hmem | hmem
    · exact Or.inl (hfold rec hmem)
    · right
      rw [List.mem_singleton.mp hmem]
      rfl

/-- C5 (counterexample): the one-token stream `[(word=1,"hello",conf=90)]`
ends without a trailing marker; its final record carries only the text and
confidence fields, with no `line_position` key. -/
theorem claim_C5_counterexample :
    data_output_to_json_lines exampleTrailingStream =
      [[("text", "hello"), ("confidence", "90.00")]] ∧
    "line_position" ∉
      (List.headI (data_output_to_json_lines exampleTrailingStream)).map Prod.fst := by
  have hf : fmt2 ((90 : ℚ)) = "90.00" := by
    have h : (90 : ℚ) = ((90 : ℕ) : ℚ) := by norm_num
    rw [h, fmt2_natCast]; decide
  have hmain : data_output_to_json_lines exampleTrailingStream =
      [[("text", "hello"), ("confidence", "90.00")]] := by
    simp [data_output_to_json_lines, jsonStep, jsonInit, exampleTrailingStream, hf]
  refine ⟨hmain, ?_⟩
  rw [hmain]
  decide

theorem claim_C5_witness :
    List.map Prod.fst [(("text" : String), ("hello" : String)), ("confidence", "90.00")] =
      ["text", "confidence", "line_position"] ∨
    List.map Prod.fst [(("text" : String), ("hello" : String)), ("confidence", "90.00")] =
      ["text", "confidence"] :=
  (claim_C5_record_fields exampleTrailingStream).2
    [("text", "hello"), ("confidence", "90.00")]
    (by
      have hf : fmt2 ((90 : ℚ)) = "90.00" := by
        have h : (90 : ℚ) = ((90 : ℕ) : ℚ) := by norm_num
        rw [h, fmt2_natCast]; decide
      simp [data_output_to_json_lines, jsonStep, jsonInit, exampleTrailingStream, hf])

/-- C3: the spec's grouping example yields exactly one record with text
"hello world" and confidence "85.00"; and in general a word-ordinal-0
token flushes the accumulator into a record exactly when the text buffer
is non-empty, resets it, and never contributes text itself. -/
theorem claim_C3_grouping :
    data_output_to_json_lines exampleGroupingStream =
      [[("text", "hello world"), ("confidence", "85.00"),
        ("line_position", "level1page_num1block_num1par_num1line_num1")]] ∧
    ∀ (s : JsonState) (record : DataLine), record.word_num = 0 →
      (s.current_line = "" → jsonStep s record = { s with last_word_num := 0 }) ∧
      (s.current_line ≠ "" → jsonStep s record =
        { lines := s.lines ++
            [[("text", s.current_line),
              ("confidence", fmt2 (s.current_conf / (s.word_count : ℚ))),
              ("line_position", line_position_of record)]],
          current_line := "", current_conf := 0, word_count := 0,
          last_word_num := 0 }) := by
  constructor
  · have hf : fmt2 (((90 : ℚ) + 80) / 2) = "85.00" := by
      have h : ((90 : ℚ) + 80) / 2 = ((85 : ℕ) : ℚ) := by norm_num
      rw [h, fmt2_natCast]; decide
    simp [data_output_to_json_lines, jsonStep, jsonInit, exampleGroupingStream,
      line_position_of, hf]
    decide
  · intro s record h0
    constructor
    · intro hl
      simp [jsonStep, h0, hl, Nat.not_lt_zero]
    · intro hl
      simp [jsonStep, h0, hl, Nat.not_lt_zero]

theorem claim_C3_witness :
    jsonStep
        { lines := [], current_line := "x", current_conf := 5, word_count := 1,
          last_word_num := 2 }
        ⟨1, 1, 1, 1, 1, 0, 0, ""⟩ =
      { lines :=
          [[("text", "x"), ("confidence", fmt2 ((5 : ℚ) / ((1 : ℕ) : ℚ))),
            ("line_position", line_position_of ⟨1, 1, 1, 1, 1, 0, 0, ""⟩)]],
        current_line := "", current_conf := 0, word_count := 0, last_word_num := 0 } :=
  (claim_C3_grouping.2
    { lines := [], current_line := "x", current_conf := 5, word_count := 1,
      last_word_num := 2 }
    ⟨1, 1, 1, 1, 1, 0, 0, ""⟩ rfl).2 (by decide)

/-- C6 (amended): a record's confidence is the arithmetic mean of the
tokens accumulated since the last flush (those with strictly increasing
word ordinal); the accumulator is reset only by a marker that finds a
non-empty text buffer, so a marker arriving at an empty text buffer leaves
previously accumulated confidence and count in place, carrying them into
the next record. -/
theorem claim_C6_confidence_accumulator :
    ∀ (s : JsonState) (record : DataLine),
      ((record.word_num = 0 ∧ s.current_line ≠ "") →
        (jsonStep s record).current_conf = 0 ∧ (jsonStep s record).word_count = 0) ∧
      ((record.word_num = 0 ∧ s.current_line = "") →
        (jsonStep s record).current_conf = s.current_conf ∧
        (jsonStep s record).word_count = s.word_count) ∧
      (record.word_num ≠ 0 → record.word_num > s.last_word_num →
        (jsonStep s record).current_conf = s.current_conf + record.conf ∧
        (jsonStep s record).word_count = s.word_count + 1) ∧
      (record.word_num ≠ 0 → ¬ record.word_num > s.last_word_num →
        (jsonStep s record).current_conf = s.current_conf ∧
        (jsonStep s record).word_count = s.word_count) := by
  intro s record
  refine ⟨?_, ?_, ?_, ?_⟩
  · rintro ⟨h0, hl⟩
    simp [jsonStep, h0, hl, Nat.not_lt_zero]
  · rintro ⟨h0, hl⟩
    simp [jsonStep, h0, hl, Nat.not_lt_zero]
  · intro h0 hw
    simp [jsonStep, h0, hw]
  · intro h0 hw
    simp [jsonStep, h0, hw]

theorem claim_C6_witness :
    (jsonStep jsonInit ⟨5, 1, 1, 1, 1, 1, 90, "w"⟩).current_conf = (0 : ℚ) + 90 ∧
    (jsonStep jsonInit ⟨5, 1, 1, 1, 1, 1, 90, "w"⟩).word_count = 0 + 1 :=
  (claim_C6_confidence_accumulator jsonInit ⟨5, 1, 1, 1, 1, 1, 90, "w"⟩).2.2.1
    (by decide) (by decide)

/-- C6 (counterexample): in the stream
`[(word=1,"",conf=50),(word=0,""),(word=1,"a",conf=100)]` the marker finds
an empty text buffer, so the confidence 50 of the first line's empty-texted
word carries over: the only emitted record has text "a" but confidence
"75.00", not the "100.00" mean of the sole word of its own line. -/
theorem claim_C6_counterexample :
    data_output_to_json_lines exampleCarryStream =
      [[("text", "a"), ("confidence", "75.00")]] ∧
    fmt2 ((100 : ℚ) / ((1 : ℕ) : ℚ)) = "100.00" ∧
    ("75.00" : String) ≠ "100.00" := by
  have hf : fmt2 (((50 : ℚ) + 100) / 2) = "75.00" := by
    have h : ((50 : ℚ) + 100) / 2 = ((75 : ℕ) : ℚ) := by norm_num
    rw [h, fmt2_natCast]; decide
  refine ⟨?_, ?_, by decide⟩
  · simp [data_output_to_json_lines, jsonStep, jsonInit, exampleCarryStream, hf]
  · have h : (100 : ℚ) / ((1 : ℕ) : ℚ) = ((100 : ℕ) : ℚ) := by norm_num
    rw [h, fmt2_natCast]; decide

/-- C1 (amended): on any pair of images that differ in width or height,
`compare_images_ssim` panics (the `expect` on the library error, message
"Images had different dimensions") instead of returning a recoverable
error value the caller could branch on. -/
theorem claim_C1_ssim_panics :
    ∀ (score : GrayImage → GrayImage → ℚ) (image1 image2 : DynamicImage),
      image1.width ≠ image2.width ∨ image1.height ≠ image2.height →
      compare_images_ssim score image1 image2 =
        .panicked "Images had different dimensions" := by
  intro score image1 image2 h
  rcases h with h | h <;>
    simp [compare_images_ssim, gray_similarity_structure, to_luma8, Except.expect, h]

theorem claim_C1_witness :
    compare_images_ssim (fun _ _ => 1) ⟨1, 1, []⟩ ⟨2, 2, []⟩ =
      .panicked "Images had different dimensions" :=
  claim_C1_ssim_panics (fun _ _ => 1) ⟨1, 1, []⟩ ⟨2, 2, []⟩ (Or.inl (by decide))

/-- C1 (counterexample): comparing a 1×1 image with a 2×2 image makes
`compare_images_ssim` panic — the dimension mismatch is not propagated as
a recoverable error value, and the call does not return normally. -/
theorem claim_C1_counterexample :
    compare_images_ssim (fun _ _ => 1) ⟨1, 1, [0]⟩ ⟨2, 2, [0, 0, 0, 0]⟩ =
      .panicked "Images had different dimensions" := by
  decide

/-- C2 (amended): `compare_with_previous_image` never modifies its
`max_average` and `max_avg_value` parameters — it reads `max_average` only
for a debug log; any replacement of the tracked MaxAverageFrame is left to
the caller. -/
theorem claim_C2_tracker_unchanged :
    ∀ (hist : GrayImage → GrayImage → Except CompareError ℚ)
      (score : GrayImage → GrayImage → ℚ)
      (previous_image : Option DynamicImage) (current_image : DynamicImage)
      (max_average : Option MaxAverageFrame) (frame_number : Nat)
      (max_avg_value : ℚ),
      (compare_with_previous_image hist score previous_image current_image
        max_average frame_number max_avg_value).2 = (max_average, max_avg_value) := by
  intro hist score previous_image current_image max_average frame_number max_avg_value
  cases previous_image with
  | none => rfl
  | some prev_image =>
    unfold compare_with_previous_image
    cases hh : compare_images_histogram hist prev_image current_image with
    | error e => simp [hh]
    | ok histogram_diff =>
      cases hs : compare_images_ssim score prev_image current_image with
      | panicked msg => simp [hh, hs]
      | ok ssim_score => simp [hh, hs]

/-- C2 (counterexample): with no prior MaxAverageFrame (`max_average =
none`) and a successfully computed score, the call leaves the tracked
frame at `none` — it does not become the current frame ordinal 7. -/
theorem claim_C2_counterexample :
    (compare_with_previous_image (fun _ _ => .ok 0) (fun _ _ => 1)
        (some ⟨1, 1, [0]⟩) ⟨1, 1, [0]⟩ none 7 0).2.1 ≠ some ⟨7⟩ := by
  decide

/-- C4: with a previous image present and both metric calls succeeding,
the returned score is (histogram distance + (1 − structural similarity)) /
2; with no previous image the call returns exactly 0 for every behavior of
the two metric black boxes — no comparison is attempted and no error is
produced. -/
theorem claim_C4_combined_score :
    (∀ (hist : GrayImage → GrayImage → Except CompareError ℚ)
        (score : GrayImage → GrayImage → ℚ)
        (prev_image current_image : DynamicImage)
        (max_average : Option MaxAverageFrame) (frame_number : Nat)
        (max_avg_value : ℚ) (h s : ℚ),
      compare_images_histogram hist prev_image current_image = .ok h →
      compare_images_ssim score prev_image current_image = .ok s →
      compare_with_previous_image hist score (some prev_image) current_image
          max_average frame_number max_avg_value =
        (.ok ((h + (1 - s)) / 2), max_average, max_avg_value)) ∧
    (∀ (hist : GrayImage → GrayImage → Except CompareError ℚ)
        (score : GrayImage → GrayImage → ℚ) (current_image : DynamicImage)
        (max_average : Option MaxAverageFrame) (frame_number : Nat)
        (max_avg_value : ℚ),
      compare_with_previous_image hist score none current_image max_average
          frame_number max_avg_value = (.ok 0, max_average, max_avg_value)) := by
  constructor
  · intro hist score prev_image current_image max_average frame_number max_avg_value
      h s hh hs
    unfold compare_with_previous_image
    simp [hh, hs]
  · intro hist score current_image max_average frame_number max_avg_value
    rfl

theorem claim_C4_witness :
    compare_with_previous_image (fun _ _ => .ok 0) (fun _ _ => 1)
        (some ⟨1, 1, [0]⟩) ⟨1, 1, [0]⟩ none 3 0 =
      (.ok (((0 : ℚ) + (1 - 1)) / 2), none, 0) :=
  claim_C4_combined_score.1 (fun _ _ => .ok 0) (fun _ _ => 1) ⟨1, 1, [0]⟩ ⟨1, 1, [0]⟩
    none 3 0 0 1 rfl (by decide)

/-- C9: a failure of the primary monitor capture fails the whole call with
the "Monitor capture failed" error, while a failure of the secondary
visible-window capture is non-fatal: the call succeeds with the primary
image, the fingerprint `calculate_hash` of that image, and an empty
window-image sequence. -/
theorem claim_C9_partial_failure :
    (∀ (image : DynamicImage) (e : String) (capture_duration : Nat),
      capture_screenshot (.ok image) (.error e) capture_duration =
        .ok (image, [], calculate_hash image, capture_duration)) ∧
    (∀ (e : String) (windows : Except String (List WindowCapture))
        (capture_duration : Nat),
      capture_screenshot (.error e) windows capture_duration =
        .error "Monitor capture failed") :=
  ⟨fun _ _ _ => rfl, fun _ _ _ => rfl⟩

/-- C8 (amended): in `save_text_files`, a directory-creation failure is
logged and aborts everything; a failure creating any of the three files
(new, current, previous) is logged and aborts that file's write and all
later categories (they are not attempted independently); a failure
writing a line of the new-text or current-text file panics via `unwrap`;
only a failure writing the previous-text file is logged and aborts just
that write without panicking. -/
theorem claim_C8_failure_policy :
    ∀ (fs : FsOracle) (frame_number : Nat)
      (new_text_json current_text_json : List (List (String × String)))
      (previous_text_json : Option (List (List (String × String)))),
      (fs.create_dir_ok "text_json" = false →
        save_text_files fs frame_number new_text_json current_text_json
            previous_text_json =
          { create_attempts := [], logs := ["Failed to create text_json directory"],
            panic := none }) ∧
      (fs.create_dir_ok "text_json" = true →
        fs.create_ok ("text_json/new_text_" ++ toString frame_number ++ ".txt") = false →
        save_text_files fs frame_number new_text_json current_text_json
            previous_text_json =
          { create_attempts := ["text_json/new_text_" ++ toString frame_number ++ ".txt"],
            logs := ["Failed to create new text file"], panic := none }) ∧
      (fs.create_dir_ok "text_json" = true →
        fs.create_ok ("text_json/new_text_" ++ toString frame_number ++ ".txt") = true →
        writeAllOk fs ("text_json/new_text_" ++ toString frame_number ++ ".txt")
            (new_text_json.map recordText) = false →
        (save_text_files fs frame_number new_text_json current_text_json
            previous_text_json).panic = some "called unwrap on an Err value") ∧
      (fs.create_dir_ok "text_json" = true →
        fs.create_ok ("text_json/new_text_" ++ toString frame_number ++ ".txt") = true →
        writeAllOk fs ("text_json/new_text_" ++ toString frame_number ++ ".txt")
            (new_text_json.map recordText) = true →
        fs.create_ok ("text_json/current_text_" ++ toString frame_number ++ ".txt") = false →
        save_text_files fs frame_number new_text_json current_text_json
            previous_text_json =
          { create_attempts :=
              ["text_json/new_text_" ++ toString frame_number ++ ".txt",
               "text_json/current_text_" ++ toString frame_number ++ ".txt"],
            logs := ["Failed to create current text file"], panic := none }) ∧
      (fs.create_dir_ok "text_json" = true →
        fs.create_ok ("text_json/new_text_" ++ toString frame_number ++ ".txt") = true →
        writeAllOk fs ("text_json/new_text_" ++ toString frame_number ++ ".txt")
            (new_text_json.map recordText) = true →
        fs.create_ok ("text_json/current_text_" ++ toString frame_number ++ ".txt") = true →
        writeAllOk fs ("text_json/current_text_" ++ toString frame_number ++ ".txt")
            (current_text_json.map recordText) = false →
        (save_text_files fs frame_number new_text_json current_text_json
            previous_text_json).panic = some "called unwrap on an Err value") ∧
      (∀ prev_json, previous_text_json = some prev_json →
        fs.create_dir_ok "text_json" = true →
        fs.create_ok ("text_json/new_text_" ++ toString frame_number ++ ".txt") = true →
        writeAllOk fs ("text_json/new_text_" ++ toString frame_number ++ ".txt")
            (new_text_json.map recordText) = true →
        fs.create_ok ("text_json/current_text_" ++ toString frame_number ++ ".txt") = true →
        writeAllOk fs ("text_json/current_text_" ++ toString frame_number ++ ".txt")
            (current_text_json.map recordText) = true →
        fs.create_ok ("text_json/previous_text_" ++ toString frame_number ++ ".txt") = false →
        save_text_files fs frame_number new_text_json current_text_json
            previous_text_json =
          { create_attempts :=
              ["text_json/new_text_" ++ toString frame_number ++ ".txt",
               "text_json/current_text_" ++ toString frame_number ++ ".txt",
               "text_json/previous_text_" ++ toString frame_number ++ ".txt"],
            logs := ["Failed to create previous text file"], panic := none }) ∧
      (∀ prev_json, previous_text_json = some prev_json →
        fs.create_dir_ok "text_json" = true →
        fs.create_ok ("text_json/new_text_" ++ toString frame_number ++ ".txt") = true →
        writeAllOk fs ("text_json/new_text_" ++ toString frame_number ++ ".txt")
            (new_text_json.map recordText) = true →
        fs.create_ok ("text_json/current_text_" ++ toString frame_number ++ ".txt") = true →
        writeAllOk fs ("text_json/current_text_" ++ toString frame_number ++ ".txt")
            (current_text_json.map recordText) = true →
        fs.create_ok ("text_json/previous_text_" ++ toString frame_number ++ ".txt") = true →
        writeAllOk fs ("text_json/previous_text_" ++ toString frame_number ++ ".txt")
            (prev_json.map recordText) = false →
        save_text_files fs frame_number new_text_json current_text_json
            previous_text_json =
          { create_attempts :=
              ["text_json/new_text_" ++ toString frame_number ++ ".txt",
               "text_json/current_text_" ++ toString frame_number ++ ".txt",
               "text_json/previous_text_" ++ toString frame_number ++ ".txt"],
            logs := ["Failed to write to previous text file"], panic := none }) := by
  intro fs frame_number new_text_json current_text_json previous_text_json
  refine ⟨?_, ?_, ?_, ?_, ?_, ?_, ?_⟩
  · intro h1
    simp [save_text_files, h1]
  · intro h1 h2
    simp [save_text_files, h1, h2]
  · intro h1 h2 h3
    simp [save_text_files, h1, h2, h3]
  · intro h1 h2 h3 h4
    simp [save_text_files, h1, h2, h3, h4]
  · intro h1 h2 h3 h4 h5
    simp [save_text_files, h1, h2, h3, h4, h5]
  · intro prev_json hp h1 h2 h3 h4 h5 h6
    simp [save_text_files, hp, h1, h2, h3, h4, h5, h6]
  · intro prev_json hp h1 h2 h3 h4 h5 h6 h7
    simp [save_text_files, hp, h1, h2, h3, h4, h5, h6, h7]

theorem claim_C8_witness :
    save_text_files ⟨fun _ => false, fun _ => true, fun _ => true⟩ 0 [] [] none =
      { create_attempts := [], logs := ["Failed to create text_json directory"],
        panic := none } :=
  (claim_C8_failure_policy ⟨fun _ => false, fun _ => true, fun _ => true⟩ 0 [] []
    none).1 rfl

/-- C8 (counterexample): when creating the new-text file fails, the
current-text file is never attempted (the categories are not independent);
and when a line write to the new-text file fails, the unwrapped error
panics instead of being logged and contained. -/
theorem claim_C8_counterexample :
    (save_text_files
        ⟨fun _ => true, fun p => !(p == "text_json/new_text_1.txt"), fun _ => true⟩ 1
        [[("text", "a")]] [[("text", "b")]] none).create_attempts =
      ["text_json/new_text_1.txt"] ∧
    "text_json/current_text_1.txt" ∉
      (save_text_files
        ⟨fun _ => true, fun p => !(p == "text_json/new_text_1.txt"), fun _ => true⟩ 1
        [[("text", "a")]] [[("text", "b")]] none).create_attempts ∧
    (save_text_files
        ⟨fun _ => true, fun _ => true, fun p => !(p == "text_json/new_text_1.txt")⟩ 1
        [[("text", "a")]] [[("text", "b")]] none).panic =
      some "called unwrap on an Err value" := by
  refine ⟨?_, ?_, ?_⟩ <;> decide
